import Mathlib

/-!
Shallow embedding of the REST client module `src/lib/api.js` and the login
screen `src/app/login.jsx` of the logistics mobile app, together with
theorems settling the behavioural claims about host discovery, request
wrapping, authentication and logout.

Modelling conventions:
* JavaScript string truthiness (`null`/`undefined`/`""` are falsy) is
  modelled on `Option String` by `jsTruthyStr` / `jsKeep`.
* `fetch` and `AsyncStorage` are external effects; they enter the embedding
  as oracle parameters (`probe`, `fetchO`, `tokenRead`) and as an explicit
  `Storage` record, and the side effects a function performs are recorded
  in an explicit `Effect` trace.
* JSON values are the inductive `Json`; parsing of wire text is an oracle
  `String → Option Json` (`none` models a parse exception).
-/

/-- JS truthiness of an optional string: `null`/`undefined` and `""` are falsy. -/
def jsTruthyStr : Option String → Bool
  | some s => s ≠ ""
  | none => false

/-- Keep an optional string only when it is JS-truthy (models `filter(Boolean)`
and guards of the form `x ? … : …`). -/
def jsKeep : Option String → Option String
  | some s => if s = "" then none else some s
  | none => none

/-- JS `a || b` on optional strings. -/
def jsOrStr (a b : Option String) : Option String :=
  if jsTruthyStr a then a else b

/-- `s.replace(/\/$/, '')`: remove one trailing slash if present. -/
def stripTrailingSlash (s : String) : String :=
  match s.data.getLast? with
  | some c => if c = '/' then String.mk s.data.dropLast else s
  | none => s

/-- Whether one character list starts with another (structural helper for
the regex test below). -/
def charListStartsWith : List Char → List Char → Bool
  | [], _ => true
  | _ :: _, [] => false
  | a :: as, b :: bs => a = b && charListStartsWith as bs

/-- The test `/^https?:\/\//.test(s)` from `detectApiBaseUrl`. -/
def startsWithHttpProto (s : String) : Bool :=
  charListStartsWith "http://".data s.data || charListStartsWith "https://".data s.data

/-- A JSON value (shape of what `JSON.parse` can return). -/
inductive Json where
  | null
  | bool (b : Bool)
  | num (n : Int)
  | str (s : String)
  | arr (xs : List Json)
  | obj (fields : List (String × Json))

/-- Read a string-valued field of a JSON object; `none` when the value is not
an object, the field is missing, or the field is not a string. -/
def Json.getStr : Json → String → Option String
  | .obj fields, k =>
    match fields.find? (fun p => p.1 = k) with
    | some p =>
      match p.2 with
      | .str s => some s
      | _ => none
    | none => none
  | _, _ => none

/-- An HTTP response as the code observes it: `res.status`, `res.ok`, and the
body text (`res.text()`). -/
structure Response where
  status : Nat
  ok : Bool
  text : String
deriving DecidableEq

/-- A thrown JS error, as inspected by the code (`error.name`, `error.message`). -/
structure JsError where
  name : String
  msg : String
deriving DecidableEq

/-- The AsyncStorage keys the module touches. -/
structure Storage where
  accessToken : Option String
  refreshToken : Option String
  userData : Option String
  lastApiHost : Option String
deriving DecidableEq

/-- Observable side effects of the embedded functions. -/
inductive Effect where
  | setTimeoutEff (ms : Nat)
  | clearTimeoutEff
  | fetchEff (url : String) (method : String)
  | setItemEff (key value : String)
  | removeItemEff (key : String)
deriving DecidableEq

/-! ### Host discovery (`detectApiBaseUrl`, lines 14–85 of `src/lib/api.js`) -/

/-- One protocol/port URL variant probed by `tryHost`. -/
structure Variant where
  base : String
  health : String
deriving DecidableEq

/-- The four URL variants `tryHost` builds for a host, in source order:
http without port, http:5000, https without port, https:5000. -/
def variants (host : String) : List Variant :=
  [ ⟨"http://" ++ host ++ "/api", "http://" ++ host ++ "/api/health"⟩,
    ⟨"http://" ++ host ++ ":5000/api", "http://" ++ host ++ ":5000/api/health"⟩,
    ⟨"https://" ++ host ++ "/api", "https://" ++ host ++ "/api/health"⟩,
    ⟨"https://" ++ host ++ ":5000/api", "https://" ++ host ++ ":5000/api/health"⟩ ]

/-- `fetch` is called without an explicit method in the probe, so it uses
the default method. -/
def fetchDefaultMethod : String := "GET"

/-- `setTimeout(() => controller.abort(), 3500)`: the per-probe abort delay. -/
def probeTimeoutMs : Nat := 3500

/-- The request each probe issues: default-method fetch of the variant's
health URL, guarded by the 3500 ms abort timer. -/
structure ProbeRequest where
  method : String
  url : String
  timeoutMs : Nat
deriving DecidableEq

/-- The probe requests `tryHost` issues for a host, in order. -/
def probeRequests (host : String) : List ProbeRequest :=
  (variants host).map (fun v => ⟨fetchDefaultMethod, v.health, probeTimeoutMs⟩)

/-- A probe oracle: the outcome of fetching a health URL. `none` models a
thrown error (network failure or abort); `some r` a response `r`. -/
def ProbeOracle : Type := String → Option Response

/-- A variant counts as reachable exactly when its health fetch returned a
response with `res.ok` (the `if (res.ok)` branch of `tryHost`). -/
def probeOk (probe : ProbeOracle) (v : Variant) : Bool :=
  match probe v.health with
  | some r => r.ok
  | none => false

/-- The loop body of `tryHost`: walk the variants in order, return the
stripped base of the first variant whose health check is ok. -/
def tryVariants (probe : ProbeOracle) : List Variant → Option String
  | [] => none
  | v :: rest =>
    if probeOk probe v then some (stripTrailingSlash v.base)
    else tryVariants probe rest

/-- `tryHost` from `detectApiBaseUrl`: probe the four variants of a host;
on the first ok response the (slash-stripped) base URL is produced. -/
def tryHost (probe : ProbeOracle) (host : String) : Option String :=
  tryVariants probe (variants host)

/-- The first variant of a host whose health probe responds ok. -/
def firstOkVariant (probe : ProbeOracle) (host : String) : Option Variant :=
  (variants host).find? (fun v => probeOk probe v)

/-- Result of a `detectApiBaseUrl` run: the module-level `API_BASE_URL`
after the call, the returned value, the hosts probed (in order), and the
storage state after the call. -/
structure DetectResult where
  apiBaseUrl : String
  returned : String
  probedHosts : List String
  storage : Storage
deriving DecidableEq

/-- The `for (const host of candidates)` loop of `detectApiBaseUrl`:
try hosts in order; on the first success `API_BASE_URL` is set, the host is
cached in `lastApiHost`, and the loop stops; if all fail the base URL is
left as it was and returned as fallback. -/
def detectLoop (probe : ProbeOracle) (st : Storage) :
    List String → String → DetectResult
  | [], base => ⟨base, base, [], st⟩
  | h :: rest, base =>
    match tryHost probe h with
    | some newBase => ⟨newBase, newBase, [h], { st with lastApiHost := some h }⟩
    | none =>
      let r := detectLoop probe st rest base
      ⟨r.apiBaseUrl, r.returned, h :: r.probedHosts, r.storage⟩

/-- The candidate host list of `detectApiBaseUrl` (lines 38–46):
`[envHost, storedHost, packagerHost, '16.176.194.83', '16.176.194.83',
emulatorHost, 'localhost'].filter(Boolean)`. -/
def hostCandidates (envHost storedHost packagerHost : Option String)
    (platformAndroid : Bool) : List String :=
  let emulatorHost := if platformAndroid then "10.0.2.2" else "localhost"
  ([ envHost, storedHost, packagerHost,
     some "16.176.194.83", some "16.176.194.83",
     some emulatorHost, some "localhost" ]).filterMap jsKeep

/-- The environment and platform inputs of `detectApiBaseUrl`. -/
structure DetectInput where
  envBase : Option String
  envHost : Option String
  apiHostVar : Option String
  packagerHost : Option String
  platformAndroid : Bool

/-- `detectApiBaseUrl` (lines 14–85): honour a full `EXPO_PUBLIC_API_BASE`
immediately; otherwise build the candidate host list and run the probe loop. -/
def detectApiBaseUrl (inp : DetectInput) (st : Storage) (probe : ProbeOracle)
    (initBase : String) : DetectResult :=
  match inp.envBase with
  | some envBase =>
    if envBase ≠ "" ∧ startsWithHttpProto envBase then
      ⟨stripTrailingSlash envBase, stripTrailingSlash envBase, [], st⟩
    else
      detectLoop probe st
        (hostCandidates (jsOrStr inp.envHost inp.apiHostVar) st.lastApiHost
          inp.packagerHost inp.platformAndroid) initBase
  | none =>
    detectLoop probe st
      (hostCandidates (jsOrStr inp.envHost inp.apiHostVar) st.lastApiHost
        inp.packagerHost inp.platformAndroid) initBase

/-- The singleton-or-empty list of a JS-truthy optional string. -/
def jsOptToList (o : Option String) : List String :=
  match jsKeep o with
  | some s => [s]
  | none => []

/-- The candidate host list as claim C2 words it: environment override host,
cached host, packager host, the hardcoded fallback hosts, and the emulator
loopback host — with nothing after the emulator loopback entry. This is the
claim-side definition, to be compared with `hostCandidates` from the source. -/
def claimedHostCandidates (envHost storedHost packagerHost : Option String)
    (platformAndroid : Bool) : List String :=
  let emulatorHost := if platformAndroid then "10.0.2.2" else "localhost"
  jsOptToList envHost ++ jsOptToList storedHost ++ jsOptToList packagerHost ++
    ["16.176.194.83", "16.176.194.83"] ++ [emulatorHost]

/-! ### The `api` object (`src/lib/api.js`, lines 104–423) -/

/-- Options passed to `api.request` (`options.method`, `options.headers`,
`options.body`; the body's wire encoding is abstracted). -/
structure RequestOptions where
  method : Option String := none
  headers : List (String × String) := []
  body : Option Json := none

/-- The outgoing HTTP request a wrapper builds. -/
structure HttpRequest where
  url : String
  method : String
  headers : List (String × String)
  body : Option Json

/-- Look up a header: JS object spread lets the latest binding for a key win. -/
def getHeader (hs : List (String × String)) (k : String) : Option String :=
  (hs.reverse.find? (fun p => p.1 = k)).map (fun p => p.2)

/-- `"Network request failed".includes` test used by `api.request`. -/
def containsNetworkFailed (msg : String) : Bool :=
  decide (List.IsInfix ("Network request failed".toList) msg.toList)

/-- `setTimeout(() => controller.abort(), 10000)` in `api.request`. -/
def requestTimeoutMs : Nat := 10000

namespace api

/-- The effective token of `api.request`: `AsyncStorage.getItem('accessToken')`
with a caught storage error leaving `token` undefined. -/
def effectiveToken (tokenRead : Except String (Option String)) : Option String :=
  match tokenRead with
  | .ok t => jsKeep t
  | .error _ => none

/-- The headers `api.request` builds: JSON content type, then conditionally
`Authorization: Bearer <token>`, then the caller's `options.headers` —
later spreads override earlier ones. -/
def requestHeaders (tokenRead : Except String (Option String))
    (options : RequestOptions) : List (String × String) :=
  [("Content-Type", "application/json")] ++
    (match effectiveToken tokenRead with
     | some t => [("Authorization", "Bearer " ++ t)]
     | none => []) ++
    options.headers

/-- The outcome of the guarded `fetch` in `api.request`:
a response, or a thrown `JsError` (abort shows up as name `"AbortError"`). -/
def FetchOutcome : Type := Except JsError Response

/-- `api.request(endpoint, options)` (lines 105–157). Parameters: the current
`API_BASE_URL`, the endpoint, the storage read of `accessToken`, the options,
the fetch outcome, and a JSON-parse oracle for the response text. Returns
the outcome (parsed body or thrown message), the request that was issued,
and the effect trace; the `finally` clause makes every path end with
`clearTimeout`. -/
def request (base endpoint : String) (tokenRead : Except String (Option String))
    (options : RequestOptions) (fetchO : FetchOutcome)
    (parse : String → Option Json) :
    Except String (Option Json) × HttpRequest × List Effect :=
  let url := base ++ endpoint
  let req : HttpRequest :=
    { url := url
      method := (jsKeep options.method).getD "GET"
      headers := requestHeaders tokenRead options
      body := options.body }
  let trace : List Effect :=
    [Effect.setTimeoutEff requestTimeoutMs, Effect.fetchEff url req.method,
     Effect.clearTimeoutEff]
  let outcome : Except String (Option Json) :=
    match fetchO with
    | .ok resp =>
      let data : Option Json := if resp.text = "" then none else parse resp.text
      if resp.ok then .ok data
      else if resp.text ≠ "" then
        .error ("HTTP " ++ toString resp.status ++ ": " ++ resp.text)
      else
        .error ("Request failed (" ++ toString resp.status ++ ")")
    | .error e =>
      if e.name = "AbortError" then
        .error ("Request timed out (10s) contacting " ++ base ++ ".")
      else if containsNetworkFailed e.msg then
        .error ("Cannot connect to server at " ++ base ++ ". Please check:\n" ++
          "1. Backend server is running\n" ++
          "2. Correct IP address\n" ++
          "3. Both devices on same network")
      else .error e.msg
  (outcome, req, trace)

/-- The error message thrown by `api.login` on a non-ok response:
`errorData.message || errorData.error || 'Login failed'`, where `errorData`
is the parsed body or `{}` when parsing threw. -/
def loginErrMessage (errJson : Option Json) : String :=
  let errorData := errJson.getD (Json.obj [])
  match jsKeep (errorData.getStr "message") with
  | some m => m
  | none =>
    match jsKeep (errorData.getStr "error") with
    | some m => m
    | none => "Login failed"

/-- `api.login(email, password)` (lines 176–190): POST the credentials as a
JSON body to `/auth/login`; return the parsed body on an ok response, throw
the extracted message otherwise. Its only effect is the fetch itself. -/
def login (base email password : String) (resp : Response)
    (parse : String → Option Json) :
    Except String Json × HttpRequest × List Effect :=
  let req : HttpRequest :=
    { url := base ++ "/auth/login"
      method := "POST"
      headers := [("Content-Type", "application/json")]
      body := some (Json.obj [("email", .str email), ("password", .str password)]) }
  let outcome : Except String Json :=
    if resp.ok then
      match parse resp.text with
      | some d => .ok d
      | none => .error "JSON Parse error"
    else .error (loginErrMessage (parse resp.text))
  (outcome, req, [Effect.fetchEff (base ++ "/auth/login") "POST"])

/-- `api.clearAuth` (lines 172–174):
`AsyncStorage.multiRemove(['accessToken', 'refreshToken', 'userData'])`. -/
def clearAuth (st : Storage) : Storage :=
  { st with accessToken := none, refreshToken := none, userData := none }

/-- `api.logout` (lines 192–195): POST `/logout` through `api.request` with
any failure swallowed by `try { … } catch {}`, then `clearAuth`. -/
def logout (base : String) (tokenRead : Except String (Option String))
    (fetchO : FetchOutcome) (parse : String → Option Json) (st : Storage) :
    Storage × List Effect :=
  let r := request base "/logout" tokenRead { method := some "POST" } fetchO parse
  (clearAuth st,
    r.2.2 ++ [Effect.removeItemEff "accessToken", Effect.removeItemEff "refreshToken",
      Effect.removeItemEff "userData"])

/-- The decoded JWT payload as `isAuthenticated` uses it: only `exp` is read;
`none` models an absent or non-numeric `exp` (whose comparison is NaN-false). -/
structure JwtPayload where
  exp : Option Int

/-- `api.isAuthenticated` (lines 197–211). `decode` models
`JSON.parse(atob(token.split('.')[1]))`; `none` models a thrown decode error,
which the `catch` turns into `false`. `now` is `Date.now()` in milliseconds. -/
def isAuthenticated (st : Storage) (decode : String → Option JwtPayload)
    (now : Int) : Bool :=
  match jsKeep st.accessToken, jsKeep st.userData with
  | some token, some _ =>
    (match decode token with
     | some payload =>
       match payload.exp with
       | some e => decide (e * 1000 > now)
       | none => false
     | none => false)
  | _, _ => false

end api

/-! ### `initializeApp` (lines 425–438) and the login screen -/

/-- How many times `initializeApp` ran host detection and the connection test. -/
structure InitTrace where
  detectRuns : Nat
  testRuns : Nat
deriving DecidableEq

/-- `initializeApp`: detect, test; if the test failed, detect and test once
more; return the final test result. `testO n` is the outcome of the n-th
`api.testConnection()` call. -/
def initializeApp (testO : Nat → Bool) : Bool × InitTrace :=
  let isConnected := testO 0
  if isConnected then (isConnected, ⟨1, 1⟩)
  else
    let isConnected2 := testO 1
    (isConnected2, ⟨2, 2⟩)

/-- What `handleLogin` in `src/app/login.jsx` does first, as an action. -/
inductive LoginAction where
  | alertConnectionError
  | alertMissingFields
  | sendLoginRequest
deriving DecidableEq

/-- `handleLogin` (lines 32–45 of `src/app/login.jsx`), up to the point where
a login request would be sent: a failed connection status shows the
connection-error alert and returns; empty email or password shows the field
alert; otherwise `api.login` is invoked. -/
def handleLogin (connectionStatus email password : String) : LoginAction :=
  if connectionStatus = "failed" then .alertConnectionError
  else if email = "" ∨ password = "" then .alertMissingFields
  else .sendLoginRequest

/-! ### Helper lemmas -/

theorem tryVariants_eq_find (probe : ProbeOracle) :
    ∀ l : List Variant,
      tryVariants probe l =
        (l.find? (fun v => probeOk probe v)).map (fun v => stripTrailingSlash v.base)
  | [] => rfl
  | v :: rest => by
    by_cases h : probeOk probe v = true
    · simp [tryVariants, h, List.find?_cons_of_pos]
    · rw [List.find?_cons_of_neg _ (by simpa using h)]
      simpa [tryVariants, h] using tryVariants_eq_find probe rest

theorem tryHost_eq_firstOkVariant (probe : ProbeOracle) (host : String) :
    tryHost probe host =
      (firstOkVariant probe host).map (fun v => stripTrailingSlash v.base) :=
  tryVariants_eq_find probe (variants host)

theorem tryVariants_isSome_iff (probe : ProbeOracle) :
    ∀ l : List Variant,
      (tryVariants probe l).isSome = true ↔ ∃ v ∈ l, probeOk probe v = true
  | [] => by simp [tryVariants]
  | v :: rest => by
    by_cases h : probeOk probe v = true
    · simp [tryVariants, h]
    · simp [tryVariants, h, tryVariants_isSome_iff probe rest]

theorem detectLoop_all_fail (probe : ProbeOracle) (st : Storage) :
    ∀ (cs : List String) (base : String),
      (∀ h ∈ cs, tryHost probe h = none) →
      detectLoop probe st cs base = ⟨base, base, cs, st⟩
  | [], base, _ => rfl
  | h :: rest, base, hall => by
    have h0 : tryHost probe h = none := hall h (List.mem_cons_self h rest)
    have ih := detectLoop_all_fail probe st rest base
      (fun x hx => hall x (List.mem_cons_of_mem h hx))
    simp [detectLoop, h0, ih]

theorem detectLoop_first_ok (probe : ProbeOracle) (st : Storage) :
    ∀ (cs : List String) (base : String) (i : Nat) (hi : i < cs.length) (b : String),
      (∀ j, (hj : j < i) → tryHost probe (cs.get ⟨j, hj.trans hi⟩) = none) →
      tryHost probe (cs.get ⟨i, hi⟩) = some b →
      detectLoop probe st cs base =
        ⟨b, b, cs.take (i + 1), { st with lastApiHost := some (cs.get ⟨i, hi⟩) }⟩
  | [], _, i, hi, _, _, _ => absurd hi (Nat.not_lt_zero i)
  | h :: rest, base, 0, hi, b, _, hok => by
    simp only [List.get] at hok
    simp [detectLoop, hok]
  | h :: rest, base, i + 1, hi, b, hfail, hok => by
    have h0 : tryHost probe h = none := hfail 0 (Nat.succ_pos i)
    have ih := detectLoop_first_ok probe st rest base i (Nat.lt_of_succ_lt_succ hi) b
      (fun j hj => hfail (j + 1) (Nat.succ_lt_succ hj)) hok
    simp [detectLoop, h0, ih]

theorem getHeader_append (xs ys : List (String × String)) (k : String) :
    getHeader (xs ++ ys) k =
      match getHeader ys k with
      | some v => some v
      | none => getHeader xs k := by
  unfold getHeader
  rw [List.reverse_append, List.find?_append]
  cases hy : (ys.reverse.find? (fun p => p.1 = k)) <;> simp [hy, Option.orElse]

/-! ### Claim theorems -/

/-- C1: for every candidate host list, the probe loop of `detectApiBaseUrl`
tries candidates strictly in list order and stops at the first host with a
variant whose health check responds ok: `API_BASE_URL` becomes that variant's
base URL with any trailing slash removed, that value is returned, and exactly
the candidates up to and including the successful one are probed — no later
candidate is. -/
theorem detect_probes_in_order (probe : ProbeOracle) (st : Storage)
    (cs : List String) (base : String) (i : Nat) (hi : i < cs.length) (v : Variant)
    (hfail : ∀ j, (hj : j < i) → tryHost probe (cs.get ⟨j, hj.trans hi⟩) = none)
    (hok : firstOkVariant probe (cs.get ⟨i, hi⟩) = some v) :
    detectLoop probe st cs base =
      ⟨stripTrailingSlash v.base, stripTrailingSlash v.base, cs.take (i + 1),
        { st with lastApiHost := some (cs.get ⟨i, hi⟩) }⟩ := by
  apply detectLoop_first_ok probe st cs base i hi (stripTrailingSlash v.base) hfail
  rw [tryHost_eq_firstOkVariant, hok]
  rfl

/-- Witness for C1: with only the second host answering (on its http:5000
variant), the loop probes the first two hosts, stops there, adopts
`http://beta:5000/api`, and caches `beta`. -/
theorem detect_probes_in_order_witness :
    detectLoop (fun url => if url = "http://beta:5000/api/health"
        then some ⟨200, true, "ok"⟩ else none)
      ⟨none, none, none, none⟩ ["alpha", "beta", "gamma"] "http://16.176.194.83:5000/api" =
      ⟨"http://beta:5000/api", "http://beta:5000/api", ["alpha", "beta"],
        ⟨none, none, none, some "beta"⟩⟩ := by
  have h := detect_probes_in_order
    (fun url => if url = "http://beta:5000/api/health" then some ⟨200, true, "ok"⟩ else none)
    ⟨none, none, none, none⟩ ["alpha", "beta", "gamma"] "http://16.176.194.83:5000/api"
    1 (by decide) ⟨"http://beta:5000/api", "http://beta:5000/api/health"⟩
    (by intro j hj; interval_cases j; rfl)
    (by decide)
  exact h.trans (by decide)

/-- Counterexample for C2: on Android with only an environment override host
set, the source candidate list carries a final hardcoded `localhost` entry
after the emulator loopback host `10.0.2.2`, so the list claimed by C2 (which
ends at the emulator loopback entry) is not the list the code tries. -/
theorem hostCandidates_counterexample :
    hostCandidates (some "api.example.com") none none true =
      ["api.example.com", "16.176.194.83", "16.176.194.83", "10.0.2.2", "localhost"] ∧
    claimedHostCandidates (some "api.example.com") none none true =
      ["api.example.com", "16.176.194.83", "16.176.194.83", "10.0.2.2"] ∧
    hostCandidates (some "api.example.com") none none true ≠
      claimedHostCandidates (some "api.example.com") none none true := by
  decide

/-- C2 (amended): when no full base URL comes from `EXPO_PUBLIC_API_BASE`,
the candidate host list is the claimed sequence — environment override host,
cached last-known host, development-machine host, the hardcoded fallback
hosts, the emulator loopback host, with falsy entries removed — followed by
one final hardcoded `localhost` entry; and `detectApiBaseUrl` runs its probe
loop on exactly that list. -/
theorem hostCandidates_amended (e s p : Option String) (a : Bool) :
    hostCandidates e s p a = claimedHostCandidates e s p a ++ ["localhost"] ∧
    (∀ (inp : DetectInput) (st : Storage) (probe : ProbeOracle) (initBase : String),
      inp.envBase = none →
      detectApiBaseUrl inp st probe initBase =
        detectLoop probe st
          (hostCandidates (jsOrStr inp.envHost inp.apiHostVar) st.lastApiHost
            inp.packagerHost inp.platformAndroid) initBase) := by
  constructor
  · rcases e with _ | es <;> rcases s with _ | ss <;> rcases p with _ | ps <;>
      cases a <;>
      simp [hostCandidates, claimedHostCandidates, jsOptToList, jsKeep,
        List.filterMap_cons] <;>
      split_ifs <;> simp
  · intro inp st probe initBase hEnv
    rcases inp with ⟨eb, eh, ah, ph, pa⟩
    cases hEnv
    rfl

/-- Witness for C2's amended theorem at concrete inputs: an Android run with
an override host, a cached host and a packager host set. -/
theorem hostCandidates_amended_witness :
    hostCandidates (some "api.example.com") (some "192.168.1.7") (some "192.168.1.9") true =
      claimedHostCandidates (some "api.example.com") (some "192.168.1.7")
        (some "192.168.1.9") true ++ ["localhost"] ∧
    detectApiBaseUrl ⟨none, some "api.example.com", none, none, true⟩
        ⟨none, none, none, some "192.168.1.7"⟩ (fun _ => none) "http://16.176.194.83:5000/api" =
      detectLoop (fun _ => none) ⟨none, none, none, some "192.168.1.7"⟩
        (hostCandidates (jsOrStr (some "api.example.com") none) (some "192.168.1.7")
          none true) "http://16.176.194.83:5000/api" :=
  ⟨(hostCandidates_amended (some "api.example.com") (some "192.168.1.7")
      (some "192.168.1.9") true).1,
   (hostCandidates_amended (some "api.example.com") (some "192.168.1.7")
      (some "192.168.1.9") true).2
      ⟨none, some "api.example.com", none, none, true⟩
      ⟨none, none, none, some "192.168.1.7"⟩ (fun _ => none)
      "http://16.176.194.83:5000/api" rfl⟩

/-- C10: when the environment supplies no full base URL and every candidate
host fails its probes, `detectApiBaseUrl` leaves `API_BASE_URL` at its value
from before the call and returns that unchanged fallback value (and storage
is untouched). -/
theorem detect_all_fail_keeps_base (inp : DetectInput) (st : Storage)
    (probe : ProbeOracle) (initBase : String)
    (hEnv : ∀ b, inp.envBase = some b → ¬(b ≠ "" ∧ startsWithHttpProto b))
    (hAll : ∀ h ∈ hostCandidates (jsOrStr inp.envHost inp.apiHostVar) st.lastApiHost
        inp.packagerHost inp.platformAndroid, tryHost probe h = none) :
    (detectApiBaseUrl inp st probe initBase).apiBaseUrl = initBase ∧
    (detectApiBaseUrl inp st probe initBase).returned = initBase ∧
    (detectApiBaseUrl inp st probe initBase).storage = st := by
  have hloop := detectLoop_all_fail probe st
    (hostCandidates (jsOrStr inp.envHost inp.apiHostVar) st.lastApiHost
      inp.packagerHost inp.platformAndroid) initBase hAll
  rcases inp with ⟨eb, eh, ah, ph, pa⟩
  rcases eb with _ | b
  · simp [detectApiBaseUrl, hloop]
  · have hb := hEnv b rfl
    simp only [detectApiBaseUrl, if_neg hb]
    simp [hloop]

/-- Witness for C10: all probes throw, nothing comes from the environment,
and the initial base URL survives the call untouched. -/
theorem detect_all_fail_keeps_base_witness :
    (detectApiBaseUrl ⟨none, none, none, none, false⟩ ⟨none, none, none, none⟩
        (fun _ => none) "http://16.176.194.83:5000/api").apiBaseUrl =
      "http://16.176.194.83:5000/api" ∧
    (detectApiBaseUrl ⟨none, none, none, none, false⟩ ⟨none, none, none, none⟩
        (fun _ => none) "http://16.176.194.83:5000/api").returned =
      "http://16.176.194.83:5000/api" ∧
    (detectApiBaseUrl ⟨none, none, none, none, false⟩ ⟨none, none, none, none⟩
        (fun _ => none) "http://16.176.194.83:5000/api").storage =
      ⟨none, none, none, none⟩ :=
  detect_all_fail_keeps_base ⟨none, none, none, none, false⟩ ⟨none, none, none, none⟩
    (fun _ => none) "http://16.176.194.83:5000/api"
    (fun b hb => by cases hb) (by decide)

/-- C3: for every host the health probe issues GET requests for exactly four
protocol/port URL variants, in the fixed order http without port, http on
port 5000, https without port, https on port 5000; every probe carries the
3500 ms abort timer, targets a `/health` endpoint (the variant's base plus
`/health`), and a host counts as reachable exactly when some variant's
response has an ok status. -/
theorem tryHost_probe_shape (host : String) (probe : ProbeOracle) :
    probeRequests host =
      [ ⟨"GET", "http://" ++ host ++ "/api/health", 3500⟩,
        ⟨"GET", "http://" ++ host ++ ":5000/api/health", 3500⟩,
        ⟨"GET", "https://" ++ host ++ "/api/health", 3500⟩,
        ⟨"GET", "https://" ++ host ++ ":5000/api/health", 3500⟩ ] ∧
    (∀ v ∈ variants host, v.health = v.base ++ "/health") ∧
    ((tryHost probe host).isSome = true ↔ ∃ v ∈ variants host, probeOk probe v = true) := by
  refine ⟨rfl, ?_, tryVariants_isSome_iff probe (variants host)⟩
  intro v hv
  simp only [variants, List.mem_cons, List.not_mem_nil, or_false] at hv
  rcases hv with rfl | rfl | rfl | rfl <;> dsimp only <;>
    simp only [String.append_assoc] <;> rfl

/-- Witness for C3 at a concrete host and probe whose first http variant is
reachable. -/
theorem tryHost_probe_shape_witness :
    probeRequests "10.0.2.2" =
      [ ⟨"GET", "http://10.0.2.2/api/health", 3500⟩,
        ⟨"GET", "http://10.0.2.2:5000/api/health", 3500⟩,
        ⟨"GET", "https://10.0.2.2/api/health", 3500⟩,
        ⟨"GET", "https://10.0.2.2:5000/api/health", 3500⟩ ] ∧
    (tryHost (fun _ => some ⟨200, true, "ok"⟩) "10.0.2.2").isSome = true :=
  ⟨((tryHost_probe_shape "10.0.2.2" (fun _ => some ⟨200, true, "ok"⟩)).1).trans (by decide),
   (tryHost_probe_shape "10.0.2.2" (fun _ => some ⟨200, true, "ok"⟩)).2.2.mpr
     ⟨⟨"http://10.0.2.2/api", "http://10.0.2.2/api/health"⟩, by decide, by decide⟩⟩

/-- C4: `initializeApp` runs detection plus a connection test, retries that
round exactly once when the first test fails, and returns the second test's
result — never a third round; and on the login screen, pressing Login while
the connection status is `failed` yields the connection-error alert, not a
login request. -/
theorem initializeApp_retry_once (testO : Nat → Bool) (email password : String) :
    (testO 0 = true → initializeApp testO = (true, ⟨1, 1⟩)) ∧
    (testO 0 = false → initializeApp testO = (testO 1, ⟨2, 2⟩)) ∧
    (initializeApp testO).2.detectRuns ≤ 2 ∧
    (initializeApp testO).2.testRuns ≤ 2 ∧
    handleLogin "failed" email password = LoginAction.alertConnectionError := by
  cases h : testO 0 <;>
    simp [initializeApp, h, handleLogin]

/-- Witness for C4: both connection tests fail, giving exactly two rounds and
a `false` result; logging in with a failed status is the connection alert. -/
theorem initializeApp_retry_once_witness :
    initializeApp (fun _ => false) = (false, ⟨2, 2⟩) ∧
    handleLogin "failed" "driver@example.com" "pw" = LoginAction.alertConnectionError :=
  ⟨(initializeApp_retry_once (fun _ => false) "driver@example.com" "pw").2.1 rfl,
   (initializeApp_retry_once (fun _ => false) "driver@example.com" "pw").2.2.2.2⟩

/-- C5: every `api.request` call arms a 10-second abort timer before the
fetch and clears it on every path (the effect trace is always
`setTimeout 10000`, the fetch, then `clearTimeout`); and when the fetch is
aborted by that timer, the thrown message says the request timed out after
10 seconds and names the base URL being contacted. -/
theorem request_timeout_guard (base endpoint : String)
    (tokenRead : Except String (Option String)) (options : RequestOptions)
    (parse : String → Option Json) :
    (∀ fetchO : api.FetchOutcome,
      (api.request base endpoint tokenRead options fetchO parse).2.2 =
        [Effect.setTimeoutEff 10000,
         Effect.fetchEff (base ++ endpoint) ((jsKeep options.method).getD "GET"),
         Effect.clearTimeoutEff]) ∧
    (∀ e : JsError, e.name = "AbortError" →
      (api.request base endpoint tokenRead options (.error e) parse).1 =
        .error ("Request timed out (10s) contacting " ++ base ++ ".")) := by
  constructor
  · intro fetchO; rfl
  · intro e he
    simp [api.request, he]

/-- Witness for C5: a concrete aborted request times out with the message
naming the base URL, and its trace arms then clears the 10-second timer. -/
theorem request_timeout_guard_witness :
    (api.request "http://16.176.194.83:5000/api" "/dashboard" (.ok none) {}
        (.error ⟨"AbortError", "Aborted"⟩) (fun _ => none)).1 =
      .error "Request timed out (10s) contacting http://16.176.194.83:5000/api." ∧
    (api.request "http://16.176.194.83:5000/api" "/dashboard" (.ok none) {}
        (.error ⟨"AbortError", "Aborted"⟩) (fun _ => none)).2.2 =
      [Effect.setTimeoutEff 10000,
       Effect.fetchEff "http://16.176.194.83:5000/api/dashboard" "GET",
       Effect.clearTimeoutEff] :=
  ⟨((request_timeout_guard "http://16.176.194.83:5000/api" "/dashboard" (.ok none) {}
      (fun _ => none)).2 ⟨"AbortError", "Aborted"⟩ rfl).trans rfl,
   ((request_timeout_guard "http://16.176.194.83:5000/api" "/dashboard" (.ok none) {}
      (fun _ => none)).1 (.error ⟨"AbortError", "Aborted"⟩)).trans (by decide)⟩

/-- C6: `api.request` attaches `Authorization: Bearer <token>` when a
(truthy) access token was read from storage and the caller did not supply an
Authorization header of their own; when the stored token is absent or the
storage read fails, the Authorization header is exactly whatever the caller
supplied (none by default); and caller-supplied headers override defaults. -/
theorem request_auth_header (base endpoint : String)
    (tokenRead : Except String (Option String)) (options : RequestOptions)
    (fetchO : api.FetchOutcome) (parse : String → Option Json) :
    (∀ t, tokenRead = .ok (some t) → t ≠ "" →
      getHeader options.headers "Authorization" = none →
      getHeader (api.request base endpoint tokenRead options fetchO parse).2.1.headers
        "Authorization" = some ("Bearer " ++ t)) ∧
    (tokenRead = .ok none →
      getHeader (api.request base endpoint tokenRead options fetchO parse).2.1.headers
        "Authorization" = getHeader options.headers "Authorization") ∧
    (∀ msg, tokenRead = .error msg →
      getHeader (api.request base endpoint tokenRead options fetchO parse).2.1.headers
        "Authorization" = getHeader options.headers "Authorization") ∧
    (∀ k v, getHeader options.headers k = some v →
      getHeader (api.request base endpoint tokenRead options fetchO parse).2.1.headers
        k = some v) := by
  have hreq : (api.request base endpoint tokenRead options fetchO parse).2.1.headers =
      api.requestHeaders tokenRead options := rfl
  refine ⟨?_, ?_, ?_, ?_⟩
  · intro t ht htne hnone
    rw [hreq]
    unfold api.requestHeaders
    rw [ht]
    have : api.effectiveToken (Except.ok (some t)) = some t := by
      simp [api.effectiveToken, jsKeep, htne]
    rw [this, getHeader_append, getHeader_append, hnone]
    rfl
  · intro ht
    rw [hreq]
    unfold api.requestHeaders
    rw [ht]
    have : api.effectiveToken (Except.ok (none : Option String)) = none := rfl
    rw [this, getHeader_append, getHeader_append]
    cases h : getHeader options.headers "Authorization" <;> rfl
  · intro msg ht
    rw [hreq]
    unfold api.requestHeaders
    rw [ht]
    have : api.effectiveToken (Except.error (α := Option String) msg) = none := rfl
    rw [this, getHeader_append, getHeader_append]
    cases h : getHeader options.headers "Authorization" <;> rfl
  · intro k v hv
    rw [hreq]
    unfold api.requestHeaders
    rw [getHeader_append, hv]

/-- Witness for C6: with a stored token and no caller headers, the built
request carries the bearer header; with a caller-supplied Authorization it
is the caller's value that wins. -/
theorem request_auth_header_witness :
    getHeader (api.request "http://16.176.194.83:5000/api" "/profile"
        (.ok (some "tok123")) {} (.error ⟨"TypeError", "Network request failed"⟩)
        (fun _ => none)).2.1.headers "Authorization" = some "Bearer tok123" ∧
    getHeader (api.request "http://16.176.194.83:5000/api" "/profile"
        (.error "storage broken") {} (.error ⟨"TypeError", "Network request failed"⟩)
        (fun _ => none)).2.1.headers "Authorization" = none ∧
    getHeader (api.request "http://16.176.194.83:5000/api" "/profile"
        (.ok (some "tok123")) { headers := [("Authorization", "Bearer other")] }
        (.error ⟨"TypeError", "Network request failed"⟩)
        (fun _ => none)).2.1.headers "Authorization" = some "Bearer other" :=
  ⟨((request_auth_header "http://16.176.194.83:5000/api" "/profile"
      (.ok (some "tok123")) {} (.error ⟨"TypeError", "Network request failed"⟩)
      (fun _ => none)).1 "tok123" rfl (by decide) rfl).trans (by decide),
   ((request_auth_header "http://16.176.194.83:5000/api" "/profile"
      (.error "storage broken") {} (.error ⟨"TypeError", "Network request failed"⟩)
      (fun _ => none)).2.2.1 "storage broken" rfl).trans rfl,
   (request_auth_header "http://16.176.194.83:5000/api" "/profile"
      (.ok (some "tok123")) { headers := [("Authorization", "Bearer other")] }
      (.error ⟨"TypeError", "Network request failed"⟩)
      (fun _ => none)).2.2.2 "Authorization" "Bearer other" rfl⟩

/-- C7: `api.login` POSTs the email and password as a JSON body to
`/auth/login`; on an ok response it returns the parsed body unchanged; on a
non-ok response it throws the body's `message` field, else its `error`
field, else `Login failed` (JS-falsy fields fall through, an unparseable
body gives `Login failed`); and its only effect is that single fetch — no
storage write or removal and no base-URL mutation. -/
theorem login_wrapper_spec (base email password : String) (resp : Response)
    (parse : String → Option Json) :
    (api.login base email password resp parse).2.1 =
      { url := base ++ "/auth/login", method := "POST",
        headers := [("Content-Type", "application/json")],
        body := some (Json.obj [("email", .str email), ("password", .str password)]) } ∧
    (resp.ok = true → ∀ d, parse resp.text = some d →
      (api.login base email password resp parse).1 = .ok d) ∧
    (resp.ok = false → ∀ j, parse resp.text = some j →
      (api.login base email password resp parse).1 =
        .error (match jsKeep (Json.getStr j "message") with
          | some m => m
          | none =>
            match jsKeep (Json.getStr j "error") with
            | some m => m
            | none => "Login failed")) ∧
    (resp.ok = false → parse resp.text = none →
      (api.login base email password resp parse).1 = .error "Login failed") ∧
    (api.login base email password resp parse).2.2 =
      [Effect.fetchEff (base ++ "/auth/login") "POST"] := by
  refine ⟨rfl, ?_, ?_, ?_, rfl⟩
  · intro hok d hd
    simp [api.login, hok, hd]
  · intro hok j hj
    simp [api.login, hok, hj, api.loginErrMessage]
  · intro hok hj
    simp [api.login, hok, hj, api.loginErrMessage, Json.getStr, jsKeep]

/-- Witness for C7: a 401 with body `{"message": "Invalid credentials"}`
throws exactly that message, and a 200 parse returns the body unchanged. -/
theorem login_wrapper_spec_witness :
    (api.login "http://16.176.194.83:5000/api" "a@b.com" "pw"
        ⟨401, false, "raw-body"⟩
        (fun _ => some (Json.obj [("message", Json.str "Invalid credentials")]))).1 =
      .error "Invalid credentials" ∧
    (api.login "http://16.176.194.83:5000/api" "a@b.com" "pw"
        ⟨200, true, "raw-body"⟩
        (fun _ => some (Json.obj [("success", Json.bool true)]))).1 =
      .ok (Json.obj [("success", Json.bool true)]) :=
  ⟨((login_wrapper_spec "http://16.176.194.83:5000/api" "a@b.com" "pw"
      ⟨401, false, "raw-body"⟩
      (fun _ => some (Json.obj [("message", Json.str "Invalid credentials")]))).2.2.1
      rfl (Json.obj [("message", Json.str "Invalid credentials")]) rfl).trans rfl,
   (login_wrapper_spec "http://16.176.194.83:5000/api" "a@b.com" "pw"
      ⟨200, true, "raw-body"⟩
      (fun _ => some (Json.obj [("success", Json.bool true)]))).2.1
      rfl (Json.obj [("success", Json.bool true)]) rfl⟩

/-- C8: `api.logout` removes `accessToken`, `refreshToken` and `userData`
from storage in every case — the POST to `/logout` is wrapped in a swallowed
try/catch, so its outcome (any fetch result, including a thrown error) never
prevents the local credential wipe, and no other storage key is touched. -/
theorem logout_always_clears (base : String) (tokenRead : Except String (Option String))
    (fetchO : api.FetchOutcome) (parse : String → Option Json) (st : Storage) :
    (api.logout base tokenRead fetchO parse st).1.accessToken = none ∧
    (api.logout base tokenRead fetchO parse st).1.refreshToken = none ∧
    (api.logout base tokenRead fetchO parse st).1.userData = none ∧
    (api.logout base tokenRead fetchO parse st).1.lastApiHost = st.lastApiHost ∧
    (api.logout base tokenRead fetchO parse st).2 =
      [Effect.setTimeoutEff 10000, Effect.fetchEff (base ++ "/logout") "POST",
       Effect.clearTimeoutEff, Effect.removeItemEff "accessToken",
       Effect.removeItemEff "refreshToken", Effect.removeItemEff "userData"] :=
  ⟨rfl, rfl, rfl, rfl, rfl⟩

/-- C9: `api.isAuthenticated` is a total boolean function of the storage
state: it is false whenever the access token or the user data is absent
(JS-falsy) or the token fails to decode as a JWT, and it is true exactly
when a truthy token and user data are present, the token decodes, and the
payload's `exp` (seconds, scaled to milliseconds) is strictly greater than
the current time. -/
theorem isAuthenticated_total_spec (st : Storage)
    (decode : String → Option api.JwtPayload) (now : Int) :
    (jsKeep st.accessToken = none ∨ jsKeep st.userData = none →
      api.isAuthenticated st decode now = false) ∧
    (∀ t, jsKeep st.accessToken = some t → decode t = none →
      api.isAuthenticated st decode now = false) ∧
    (api.isAuthenticated st decode now = true ↔
      ∃ t p e, jsKeep st.accessToken = some t ∧ (jsKeep st.userData).isSome = true ∧
        decode t = some p ∧ p.exp = some e ∧ e * 1000 > now) := by
  unfold api.isAuthenticated
  cases htok : jsKeep st.accessToken with
  | none => simp
  | some t =>
    cases hud : jsKeep st.userData with
    | none => simp
    | some u =>
      cases hdec : decode t with
      | none => simp [hdec]
      | some p =>
        cases hexp : p.exp with
        | none => simp [hdec, hexp]
        | some e =>
          simp only [hdec, hexp]
          constructor
          · rintro (h | h) <;> cases h
          constructor
          · intro t2 ht2 hd2
            cases ht2
            rw [hd2] at hdec
            exact Option.noConfusion hdec
          · constructor
            · intro hgt
              exact ⟨t, p, e, rfl, rfl, hdec, hexp, by simpa using hgt⟩
            · rintro ⟨t2, p2, e2, ht2, _, hd2, he2, hgt⟩
              cases ht2
              rw [hdec] at hd2
              cases hd2
              rw [hexp] at he2
              cases he2
              simpa using hgt

/-- Witness for C9: a stored token whose payload expires in the future
authenticates; a missing token does not. -/
theorem isAuthenticated_total_spec_witness :
    api.isAuthenticated ⟨some "header.payload.sig", none, some "user-json", none⟩
        (fun _ => some ⟨some 2000000000⟩) 1700000000000 = true ∧
    api.isAuthenticated ⟨none, none, some "user-json", none⟩
        (fun _ => some ⟨some 2000000000⟩) 1700000000000 = false :=
  ⟨(isAuthenticated_total_spec ⟨some "header.payload.sig", none, some "user-json", none⟩
      (fun _ => some ⟨some 2000000000⟩) 1700000000000).2.2.mpr
      ⟨"header.payload.sig", ⟨some 2000000000⟩, 2000000000, rfl, rfl, rfl, rfl, by decide⟩,
   (isAuthenticated_total_spec ⟨none, none, some "user-json", none⟩
      (fun _ => some ⟨some 2000000000⟩) 1700000000000).1 (Or.inl rfl)⟩
